import Mathlib

/-!
# Verification of the `ecmwfspec` retrieval coordination core

A shallow embedding, in Lean 4, of the parts of `ecmwfspec` that the
specification's claims are about: the `ECFile` handle and its batching
queue drain (`src/ecmwfspec/core.py`), the directory-listing logic of
`ECFileSystem.ls` / `ECFileSystem.exists`, and the thin ECFS command
wrappers (`src/ecmwfspec/ecfs_wrapper.py`).

Machine state that Python mutates in place (the shared `FileQueue`, the
`file_listing_cache` DataFrame, the local filesystem) is passed explicitly;
Python exceptions become `Except` / `Option` results.  External subprocess
calls (`els`, `ecp`) are oracles: their observable result is a record that
the embedded function inspects exactly as the source does.
-/

set_option autoImplicit false

namespace Ecmwfspec

/-! ## ECFile.__init__ (core.py lines 95-137) -/

/-- `ECFile.write_msg` (core.py line 91), typo included. -/
def writeMsg : String := "Write mode is not suppored"

/-- The mode gate of `ECFile.__init__` (core.py line 110):
`set(mode) & set("r")` is non-empty iff the mode string contains `'r'`. -/
def modeHasR (mode : String) : Bool := mode.toList.contains 'r'

/-- Split a character list at every character satisfying `p`, keeping
empty fields (the splitting of Python's `str.split(sep)`). -/
def splitWhen (p : Char → Bool) : List Char → List (List Char)
  | [] => [[]]
  | x :: xs =>
    let r := splitWhen p xs
    if p x then [] :: r
    else
      match r with
      | [] => [[x]]
      | y :: ys => (x :: y) :: ys

/-- Join path components with `/`. -/
def joinSlash : List (List Char) → List Char
  | [] => []
  | [x] => x
  | x :: xs => x ++ '/' :: joinSlash xs

/-- `pathlib.Path(p).parent` for an absolute path `p`, as used for the
destination directory enqueued at core.py line 133. -/
def pathParent (p : String) : String :=
  let cs := (splitWhen (fun c => c = '/') p.toList).filter (fun s => !s.isEmpty)
  if cs.isEmpty then "/" else "/" ++ String.mk (joinSlash cs.dropLast)

/-- Observable outcome of a successful `ECFile.__init__`:
which requests were put on the shared queue, whether a local descriptor was
opened immediately (`self._file_obj is not None`, i.e. the handle starts
`Staged`), whether the local file's mtime was touched, and which `ecfs.cp`
calls were made (the constructor never makes any). -/
structure InitOutcome where
  enqueued : List (String × String)
  staged : Bool
  touched : Bool
  copyCalls : List String
  deriving Repr, DecidableEq

/-- `ECFile.__init__` (core.py lines 110-137), for a local destination that
does (`localExists = true`) or does not already exist.  Raising
`NotImplementedError(write_msg)` is the `.error` case; it happens before any
queue interaction, so an `.error` result carries no enqueue. -/
def ecfileInit (url localFile mode : String) (override touch : Bool)
    (localExists : Bool) : Except String InitOutcome :=
  if !modeHasR mode then .error writeMsg
  else if !localExists || override then
    .ok ⟨[(url, pathParent localFile)], false, false, []⟩
  else if localExists then
    .ok ⟨[], true, touch, []⟩
  else
    .ok ⟨[], false, false, []⟩

/-- `true` iff `ECFile.__init__` raises. -/
def initRaises (r : Except String InitOutcome) : Bool :=
  match r with
  | .error _ => true
  | .ok _ => false

/-- The handle state an `ECFile` can be in: `staged = true` once
`self._file_obj` is an open local descriptor. -/
structure ECFileState where
  staged : Bool
  deriving Repr, DecidableEq

/-- `ECFile.write` (core.py lines 236-238): raises unconditionally. -/
def ECFile.write (_h : ECFileState) (_args : List String) : Except String Unit :=
  .error writeMsg

/-- `ECFile.writelines` (core.py lines 232-234): raises unconditionally. -/
def ECFile.writelines (_h : ECFileState) (_args : List String) : Except String Unit :=
  .error writeMsg

/-- A pure read variant in the sense of the specification ("Modes accept
only read variants (binary or text)"): a mode made of `r`, `b`, `t` only,
containing `r`.  Used solely to state the claim about the mode gate; the
embedding of the gate itself is `modeHasR`. -/
def specReadVariant (mode : String) : Bool :=
  mode.toList.contains 'r' && mode.toList.all (fun c => c = 'r' || c = 'b' || c = 't')

/-- `ECFile.__init__`'s default for `override` (core.py line 101). -/
def ECFile.overrideDefault : Bool := true

/-- The default for `override` stated by `ECFile`'s docstring
(core.py line 59: "override: bool, default: False"). -/
def ECFile.docOverrideDefault : Bool := false

/-- `ECFileSystem.__init__`'s default for `override` (core.py line 281),
which `ECFileSystem._open` passes to `ECFile` (core.py line 440). -/
def ECFileSystem.overrideDefault : Bool := false

/-- `ECFile.__init__` as called without an explicit `override` argument. -/
def ecfileInitDefaults (url localFile mode : String) (touch : Bool)
    (localExists : Bool) : Except String InitOutcome :=
  ecfileInit url localFile mode ECFile.overrideDefault touch localExists

/-! ## The batch drain (core.py lines 146-178) -/

/-- The sentinel tuple pushed by `_cache_files` (core.py line 164). -/
def sentinel : String × String := ("finish", "finish")

/-- `ECFile._retrieve_items` (core.py lines 146-157): walk the batch in
order, calling `ecfs.cp` on each request's remote path.  The copy oracle
returns `none` on success and `some msg` when `ecfs.cp` raises.  Returns
the remote paths actually passed to `ecfs.cp`, in call order, and the
first failure if any (a raise aborts the loop). -/
def retrieveItems (copy : String → Option String) :
    List (String × String) → List String × Option String
  | [] => ([], none)
  | r :: rs =>
    match copy r.1 with
    | none =>
      let rec0 := retrieveItems copy rs
      (r.1 :: rec0.1, rec0.2)
    | some msg => ([r.1], some msg)

/-- Observable outcome of one `ECFile._cache_files` drain: the shared queue
afterwards, the batch collected up to the sentinel, the `ecfs.cp` calls
made, and the propagated error if the staging failed. -/
structure DrainResult where
  queue : List (String × String)
  batch : List (String × String)
  copyCalls : List String
  error : Option String
  deriving Repr, DecidableEq

/-- The drain of `ECFile._cache_files` (core.py lines 161-177), on the
shared queue `q` (head = front of the FIFO).  If the queue is non-empty:
push the sentinel, pop `qsize() - 1` items into the batch, stage them; on
failure pop everything that remains (sentinel included) and propagate, on
success pop the sentinel. -/
def drainAndStage (copy : String → Option String)
    (q : List (String × String)) : DrainResult :=
  if q.length > 0 then
    let q1 := q ++ [sentinel]
    let batch := q1.take (q1.length - 1)
    let rest := q1.drop (q1.length - 1)
    let staged := retrieveItems copy batch
    match staged.2 with
    | none => ⟨rest.drop 1, batch, staged.1, none⟩
    | some e => ⟨[], batch, staged.1, some e⟩
  else ⟨q, [], [], none⟩

/-! ## ecfs_wrapper.ls (ecfs_wrapper.py lines 13-73) -/

/-- The observable result of the `els` subprocess run by `ecfs.ls`. -/
structure CmdResult where
  returncode : Int
  stdout : String
  stderr : String
  deriving Repr, DecidableEq

/-- The exceptions `ecfs.ls` can raise: the three classified errors of
ecfs_wrapper.py lines 56-61, and pandas' `ValueError` raised by
`pd.DataFrame(files, columns=columns)` on a column-count mismatch. -/
inductive EcfsError where
  | permissionDenied (msg : String)
  | fileNotFound (msg : String)
  | generic (msg : String)
  | valueError
  deriving Repr, DecidableEq

/-- `pat` occurs as a contiguous segment of `s`. -/
def segOccurs (pat : List Char) (s : List Char) : Bool :=
  match s with
  | [] => pat.isEmpty
  | _ :: tail => pat.isPrefixOf s || segOccurs pat tail

/-- Python's `pat in s` for a non-empty literal `pat`: substring test. -/
def strContains (s pat : String) : Bool := segOccurs pat.toList s.toList

/-- Python's `str.split("\n")`. -/
def splitNewlines (s : String) : List String :=
  (splitWhen (fun c => c = '\n') s.toList).map String.mk

/-- Python's `str.split()` with no argument: split on whitespace runs,
dropping empty fields. -/
def pySplit (s : String) : List String :=
  ((splitWhen (fun c => c.isWhitespace) s.toList).map String.mk).filter
    (fun t => t ≠ "")

/-- Python's `str.startswith(pre)`. -/
def strStarts (s pre : String) : Bool := pre.toList.isPrefixOf s.toList

/-- `pd.DataFrame(rows, columns)` for a list of row lists: rows are padded
to the widest row; if that width differs from the column count, pandas
raises `ValueError`.  An empty row list always succeeds. -/
def mkDataFrame (rows : List (List String)) (ncols : Nat) :
    Except EcfsError (List (List String)) :=
  if rows.isEmpty then .ok []
  else
    let w := (rows.map List.length).foldr max 0
    if w = ncols then
      .ok (rows.map (fun r => r ++ List.replicate (ncols - r.length) ""))
    else .error .valueError

/-- `ecfs.ls` (ecfs_wrapper.py lines 50-73), given the result of the `els`
subprocess: a non-zero exit is classified by the stderr text into
`PermissionError` / `FileNotFoundError` / generic `Exception`; a zero exit
parses stdout's non-empty lines (whitespace-split into 9 columns when
`detail`, a single `path` column otherwise) into the returned frame. -/
def lsRun (detail : Bool) (res : CmdResult) :
    Except EcfsError (List (List String)) :=
  if res.returncode ≠ 0 then
    if strContains res.stderr "Permission denied" then
      .error (.permissionDenied res.stderr)
    else if strContains res.stderr "File does not exist" then
      .error (.fileNotFound res.stderr)
    else .error (.generic res.stderr)
  else
    let resultLines := (splitNewlines res.stdout).filter (fun f => f ≠ "")
    let files := if detail then resultLines.map pySplit
                 else resultLines.map (fun l => [l])
    mkDataFrame files (if detail then 9 else 1)

/-- Well-formed `els` output: when a detailed listing is requested, every
non-empty stdout line splits into exactly the 9 expected columns. -/
def wellFormedOut (detail : Bool) (res : CmdResult) : Prop :=
  detail = true →
    ∀ l ∈ (splitNewlines res.stdout).filter (fun f => f ≠ ""),
      (pySplit l).length = 9

/-! ## ecfs_wrapper.cp (ecfs_wrapper.py lines 76-86) -/

/-- The observable result of the `ecp` subprocess run by `ecfs.cp`:
whether it exited zero (`subprocess.check_output` raises
`CalledProcessError` otherwise), its captured stdout, and the set of local
directories existing after the run (each directory as a component list). -/
structure EcpRun where
  exitOk : Bool
  stdout : String
  dirsAfter : List (List String)
  deriving Repr, DecidableEq

/-- `ecfs.cp` (ecfs_wrapper.py lines 76-86): `check_output` raises on a
failure exit; any non-empty captured output is logged and raised as an
error; otherwise the copy is accepted. -/
def cp (res : EcpRun) : Except String (List (List String)) :=
  if !res.exitOk then .error "CalledProcessError"
  else if res.stdout ≠ "" then .error "Error running command"
  else .ok res.dirsAfter

/-- `os.makedirs(d, exist_ok=True)`: ensure `d` and all its ancestors
exist. -/
def mkdirs (dirs : List (List String)) (d : List String) :
    List (List String) :=
  dirs ++ (((List.range (d.length + 1)).map (fun k => d.take k)).filter
    (fun a => decide (a ≠ [] ∧ a ∉ dirs)))

/-- Modelled from the spec: the external `ecp` command invoked by
`ecfs.cp` is not part of this repository (only its caller and its test
stand-in `ECMock.cp` in `tests/conftest.py`, which runs
`os.makedirs(os.path.dirname(out_path), exist_ok=True)` before copying,
are).  The spec requires that the copy primitive "must create parent
directories of `localPath` as needed; any non-empty diagnostic output or
failure exit is treated as an error"; accordingly a successful `ecp` run
to destination `dst` exits zero, prints nothing, and leaves the parent
directories of `dst` created. -/
def ecpSpec (dirs : List (List String)) (dst : List String) : EcpRun :=
  ⟨true, "", mkdirs dirs dst.dropLast⟩

/-! ## ECFileSystem.ls and exists (core.py lines 335-418) -/

/-- A row of the listing frame as `ECFileSystem.ls` uses it: the fields
read at core.py lines 400-402 (`permissions`, `size`, `path`; all fields
are strings, split from `els` output). -/
structure LsRow where
  permissions : String
  size : String
  path : String
  deriving Repr, DecidableEq

/-- A `FileInfo` dict built by `ECFileSystem.ls` (core.py lines 398-405). -/
structure FileInfo where
  name : String
  size : String
  type : Option String
  deriving Repr, DecidableEq

/-- The exceptions `ECFileSystem.ls` can raise: an `ecfs.ls` error from
the primitive call, the `KeyError` of `types[file_entry.permissions[0]]`
for a permission code outside the mapping, or the `IndexError` of
`permissions[0]` on an empty permission string. -/
inductive FsLsError where
  | fetchErr (e : EcfsError)
  | keyError (c : Char)
  | indexError
  deriving Repr, DecidableEq

/-- The kind mapping `types = {"d": "directory", "-": "file", "o": "file"}`
(core.py line 397), as a partial lookup. -/
def kindOf (c : Char) : Option String :=
  if c = 'd' then some "directory"
  else if c = '-' then some "file"
  else if c = 'o' then some "file"
  else none

/-- `str(path / file_entry.path)` (core.py line 400): pathlib-style join,
where an absolute right-hand side replaces the base. -/
def joinPath (base rel : String) : String :=
  if strStarts rel "/" then rel else base ++ "/" ++ rel

/-- One entry of the list comprehension of core.py lines 398-405:
`{"name": str(path / e.path), "size": e.size, "type": types[e.permissions[0]]
if detail else None}`; with `detail`, an unknown permission code raises
`KeyError` and an empty permission string raises `IndexError`. -/
def classifyRow (path : String) (detail : Bool) (r : LsRow) :
    Except FsLsError FileInfo :=
  if detail then
    match r.permissions.toList with
    | [] => .error .indexError
    | c :: _ =>
      match kindOf c with
      | none => .error (.keyError c)
      | some k => .ok ⟨joinPath path r.path, r.size, some k⟩
  else .ok ⟨joinPath path r.path, r.size, none⟩

/-- The list comprehension of core.py lines 398-405 building the
`FileInfo` dicts from the listing frame, aborting at the first entry whose
classification raises. -/
def buildDetailList (path : String) (detail : Bool) :
    List LsRow → Except FsLsError (List FileInfo)
  | [] => .ok []
  | r :: rs =>
    match classifyRow path detail r with
    | .error e => .error e
    | .ok fi =>
      match buildDetailList path detail rs with
      | .error e => .error e
      | .ok fis => .ok (fi :: fis)

/-- `ECFileSystem.ls` (core.py lines 375-409) for the plain `ec`
protocol, over the mutable `file_listing_cache` (a list of rows) and the
primitive `fetch path recursive` standing for
`ecfs.ls(str(url), detail=detail, recursive=recursive)`.  Returns the
cache as left after the call together with the result: the source filters
the cache (by equality for a non-recursive query, by `str.startswith` on
the path for a recursive one), performs the primitive call only when that
filter comes back empty, appends the fetched rows to the cache only when
the query was recursive, and then builds the detail list. -/
def fsLs (fetch : String → Bool → Except EcfsError (List LsRow))
    (cache : List LsRow) (path : String) (detail recursive : Bool) :
    List LsRow × Except FsLsError (List FileInfo) :=
  let filelist := if recursive then cache.filter (fun r => strStarts r.path path)
                  else cache.filter (fun r => r.path == path)
  if filelist.isEmpty then
    match fetch path recursive with
    | .error e => (cache, .error (.fetchErr e))
    | .ok fresh =>
      let cache1 := if recursive then cache ++ fresh else cache
      (cache1, buildDetailList path detail fresh)
  else (cache, buildDetailList path detail filelist)

/-- `ECFileSystem.exists` (core.py lines 411-418): call `self.ls(path)`
(defaults `detail=True`, `recursive=False`) under a bare `except:` and
report whether it raised. -/
def fsExists (fetch : String → Bool → Except EcfsError (List LsRow))
    (cache : List LsRow) (path : String) : Bool :=
  match (fsLs fetch cache path true false).2 with
  | .ok _ => true
  | .error _ => false

/-- `true` on `.ok`, `false` on `.error`. -/
def exOk {ε α : Type} (r : Except ε α) : Bool :=
  match r with
  | .ok _ => true
  | .error _ => false

instance {ε α : Type} [DecidableEq ε] [DecidableEq α] :
    DecidableEq (Except ε α) := fun
  | .ok a, .ok b =>
    if h : a = b then .isTrue (by rw [h]) else .isFalse (by simp [h])
  | .ok _, .error _ => .isFalse (by simp)
  | .error _, .ok _ => .isFalse (by simp)
  | .error e, .error f =>
    if h : e = f then .isTrue (by rw [h]) else .isFalse (by simp [h])

/-! ## Theorems -/

/-- C1 (counterexample): the mode string `"r+"` is not a pure read variant
(it requests update, i.e. write, access), yet `ECFile.__init__` does not
raise for it: `set("r+") & set("r")` is non-empty, so construction proceeds
and enqueues a retrieval request. -/
theorem ecfile_mode_gate_cx :
    specReadVariant "r+" = false
    ∧ initRaises (ecfileInit "u" "/a/b" "r+" true true false) = false
    ∧ ecfileInit "u" "/a/b" "r+" true true false =
        .ok ⟨[("u", "/a")], false, false, []⟩ :=
  ⟨by decide, by decide, by decide⟩

/-- C1 (amended): `ECFile.__init__` raises `NotImplementedError(write_msg)`
exactly when the mode string contains no `'r'` character (so write-capable
modes that do contain `'r'`, such as `"r+"`, are accepted); when it raises
it does so before any queue interaction, so nothing is enqueued; and
`ECFile.write` / `ECFile.writelines` raise that same error on every handle
regardless of state. -/
theorem ecfile_mode_gate (url localFile mode : String)
    (override touch localExists : Bool) (h : ECFileState) (args : List String) :
    initRaises (ecfileInit url localFile mode override touch localExists)
        = !modeHasR mode
    ∧ (modeHasR mode = false →
        ecfileInit url localFile mode override touch localExists
          = .error writeMsg)
    ∧ ECFile.write h args = .error writeMsg
    ∧ ECFile.writelines h args = .error writeMsg := by
  refine ⟨?_, ?_, rfl, rfl⟩
  · cases hm : modeHasR mode
    · simp [ecfileInit, hm, initRaises]
    · cases localExists <;> cases override <;>
        simp [ecfileInit, hm, initRaises]
  · intro hm
    simp [ecfileInit, hm]

/-- C1 witness: a concrete write mode is rejected. -/
theorem ecfile_mode_gate_wit :
    ecfileInit "u" "/a/b" "w" true true false = .error writeMsg :=
  (ecfile_mode_gate "u" "/a/b" "w" true true false ⟨false⟩ []).2.1 (by decide)

/-- C5: for every `ECFile` constructed with a read-capable mode, if the
local destination does not exist or override is set, exactly one retrieval
request `(url, parent(local_file))` is enqueued and the handle stays
pending (no descriptor, no touch, no `ecfs.cp` call); otherwise (the file
exists and override is unset) nothing is enqueued, the handle is staged
immediately, the mtime is touched exactly when the touch policy is on, and
no `ecfs.cp` call is made. -/
theorem ecfile_open_staging (url localFile mode : String)
    (override touch localExists : Bool) (hm : modeHasR mode = true) :
    ((!localExists || override) = true →
        ecfileInit url localFile mode override touch localExists
          = .ok ⟨[(url, pathParent localFile)], false, false, []⟩)
    ∧ (localExists = true → override = false →
        ecfileInit url localFile mode override touch localExists
          = .ok ⟨[], true, touch, []⟩) := by
  constructor
  · intro hc
    simp [ecfileInit, hm, hc]
  · intro he ho
    simp [ecfileInit, hm, he, ho]

/-- C5 witness: both branches at concrete inputs. -/
theorem ecfile_open_staging_wit :
    ecfileInit "u" "/a/b" "rb" false true false
        = .ok ⟨[("u", "/a")], false, false, []⟩
    ∧ ecfileInit "u" "/a/b" "rb" false true true = .ok ⟨[], true, true, []⟩ :=
  ⟨(ecfile_open_staging "u" "/a/b" "rb" false true false (by decide)).1
      (by decide),
   (ecfile_open_staging "u" "/a/b" "rb" false true true (by decide)).2
      (by decide) (by decide)⟩

/-- C8: `ECFile.__init__`'s default is `override = True`, contradicting its
docstring's stated default of `False`; so a default-constructed `ECFile`
enqueues a retrieval request even when the local file already exists, the
touch-and-open-immediately branch is reachable only with `override = false`
(and an existing local file), and `ECFileSystem.__init__` does default
`override` to `False` (which `_open` forwards). -/
theorem override_default_contradiction :
    ECFile.overrideDefault = true
    ∧ ECFile.overrideDefault ≠ ECFile.docOverrideDefault
    ∧ (∀ url localFile mode touch, modeHasR mode = true →
        ecfileInitDefaults url localFile mode touch true
          = .ok ⟨[(url, pathParent localFile)], false, false, []⟩)
    ∧ ECFileSystem.overrideDefault = false
    ∧ (∀ url localFile mode override touch localExists o,
        ecfileInit url localFile mode override touch localExists = .ok o →
        o.staged = true → override = false ∧ localExists = true) := by
  refine ⟨rfl, by decide, ?_, rfl, ?_⟩
  · intro url localFile mode touch hm
    simp [ecfileInitDefaults, ecfileInit, hm, ECFile.overrideDefault]
  · intro url localFile mode override touch localExists o hOk hStaged
    by_cases hm : modeHasR mode
    · by_cases hc : (!localExists || override) = true
      · simp [ecfileInit, hm, hc] at hOk
        rw [← hOk] at hStaged
        simp at hStaged
      · have hc' : localExists = true ∧ override = false := by
          cases localExists <;> cases override <;> simp_all
        refine ⟨hc'.2, hc'.1⟩
    · simp [ecfileInit, hm] at hOk

/-- C8 witness: with the source default `override = True` and an existing
local file, a request is still enqueued. -/
theorem override_default_contradiction_wit :
    ecfileInitDefaults "u" "/a/b" "rb" true true
      = .ok ⟨[("u", "/a")], false, false, []⟩ :=
  override_default_contradiction.2.2.1 "u" "/a/b" "rb" true (by decide)

/-- Helper: when every copy succeeds, `_retrieve_items` calls `ecfs.cp`
once per request, front to back. -/
theorem retrieveItems_ok (copy : String → Option String)
    (q : List (String × String)) (h : ∀ r ∈ q, copy r.1 = none) :
    retrieveItems copy q = (q.map Prod.fst, none) := by
  induction q with
  | nil => rfl
  | cons r rs ih =>
    have hr : copy r.1 = none := h r (by simp)
    have ih' := ih (fun x hx => h x (by simp [hx]))
    simp [retrieveItems, hr, ih']

/-- Helper: the batch taken up to the sentinel is exactly the queue as it
stood when the sentinel was pushed, and only the sentinel remains behind. -/
theorem drain_snapshot (q : List (String × String)) :
    (q ++ [sentinel]).take ((q ++ [sentinel]).length - 1) = q
    ∧ (q ++ [sentinel]).drop ((q ++ [sentinel]).length - 1) = [sentinel] := by
  have hlen : (q ++ [sentinel]).length - 1 = q.length := by simp
  rw [hlen]
  exact ⟨List.take_left q [sentinel], List.drop_left q [sentinel]⟩

/-- C2: draining a non-empty queue whose copies all succeed collects
exactly the requests present when the sentinel was pushed, invokes
`ecfs.cp` once per collected request in FIFO order (duplicates included,
no deduplication or reordering), never stages the sentinel, and leaves the
queue empty. -/
theorem drain_success (copy : String → Option String)
    (q : List (String × String)) (hne : q ≠ [])
    (hok : ∀ r ∈ q, copy r.1 = none) :
    drainAndStage copy q = ⟨[], q, q.map Prod.fst, none⟩ := by
  have hlen : 0 < q.length := List.length_pos.mpr hne
  have hsnap := drain_snapshot q
  simp only [drainAndStage, gt_iff_lt, hlen, if_pos, hsnap.1, hsnap.2,
    retrieveItems_ok copy q hok, List.drop_succ_cons, List.drop_nil]

/-- C2 witness: a batch with a duplicate remote path is staged once per
request, in order. -/
theorem drain_success_wit :
    drainAndStage (fun _ => none) [("a", "d"), ("a", "d"), ("b", "d")]
      = ⟨[], [("a", "d"), ("a", "d"), ("b", "d")], ["a", "a", "b"], none⟩ :=
  drain_success (fun _ => none) [("a", "d"), ("a", "d"), ("b", "d")]
    (by decide) (by decide)

/-- C3: if staging the batch fails, the drain pops every remaining entry
(the sentinel included), leaving the shared queue empty, and propagates
that same failure to the caller; the `ecfs.cp` calls stop at the failing
item. -/
theorem drain_failure (copy : String → Option String)
    (q : List (String × String)) (hne : q ≠ [])
    (hfail : (retrieveItems copy q).2.isSome = true) :
    drainAndStage copy q
      = ⟨[], q, (retrieveItems copy q).1, (retrieveItems copy q).2⟩ := by
  have hlen : 0 < q.length := List.length_pos.mpr hne
  have hsnap := drain_snapshot q
  obtain ⟨e, he⟩ := Option.isSome_iff_exists.mp hfail
  simp only [drainAndStage, gt_iff_lt, hlen, if_pos, hsnap.1, hsnap.2, he]

/-- C3 witness: copy fails on the first of two requests; the second is not
staged, the queue ends empty, and the error propagates. -/
theorem drain_failure_wit :
    drainAndStage (fun s => if s == "a" then some "boom" else none)
        [("a", "d"), ("b", "d")]
      = ⟨[], [("a", "d"), ("b", "d")], ["a"], some "boom"⟩ := by
  have h := drain_failure (fun s => if s == "a" then some "boom" else none)
    [("a", "d"), ("b", "d")] (by decide) (by decide)
  exact h.trans (by decide)

/-- A primitive `list` call that always raises; used to witness that a
code path performed no primitive call. -/
def fetchFails : String → Bool → Except EcfsError (List LsRow) :=
  fun _ _ => .error (.generic "fetch")

/-- A one-row listing cache whose cached path is exactly `/a`. -/
def cacheWithA : List LsRow := [⟨"-rw-r--r--", "5", "/a"⟩]

/-- C4 (counterexample): with a cached row whose path equals the query
path, a non-recursive `ls` of `/a` answers from the cache and never calls
the primitive — here the primitive unconditionally raises, yet `ls`
succeeds.  So the directory-listing cache IS consulted by non-recursive
queries (by exact path match, core.py lines 380-384). -/
theorem ls_cache_policy_cx :
    fetchFails "/a" false = .error (.generic "fetch")
    ∧ fsLs fetchFails cacheWithA "/a" true false
        = (cacheWithA, .ok [⟨"/a", "5", some "file"⟩]) :=
  ⟨rfl, rfl⟩

/-- C4 (amended): a non-recursive `ls` query does consult the listing
cache, by exact path match: on a hit the primitive is not consulted at all
(the result is the same for every primitive) and the cache is unchanged;
on a miss the primitive is called afresh and its result is still not
stored.  A recursive query reads the cache by path-prefix match and, on a
miss, appends the fetched entries to the cache. -/
theorem ls_cache_policy (fetch g : String → Bool → Except EcfsError (List LsRow))
    (cache : List LsRow) (p : String) (detail : Bool) :
    ((cache.filter (fun r => r.path == p)).isEmpty = true →
        (fsLs fetch cache p detail false).1 = cache
        ∧ (∀ e, fetch p false = .error e →
            (fsLs fetch cache p detail false).2 = .error (.fetchErr e))
        ∧ (∀ rows, fetch p false = .ok rows →
            (fsLs fetch cache p detail false).2 = buildDetailList p detail rows))
    ∧ ((cache.filter (fun r => r.path == p)).isEmpty = false →
        fsLs fetch cache p detail false = fsLs g cache p detail false
        ∧ (fsLs fetch cache p detail false).1 = cache)
    ∧ ((cache.filter (fun r => strStarts r.path p)).isEmpty = true →
        ∀ rows, fetch p true = .ok rows →
          (fsLs fetch cache p detail true).1 = cache ++ rows) := by
  refine ⟨?_, ?_, ?_⟩
  · intro hmiss
    refine ⟨?_, ?_, ?_⟩
    · simp only [fsLs, hmiss, if_true, Bool.false_eq_true, if_false]
      cases fetch p false <;> rfl
    · intro e he
      simp [fsLs, hmiss, he]
    · intro rows hrows
      simp [fsLs, hmiss, hrows]
  · intro hhit
    simp [fsLs, hhit]
  · intro hmiss rows hrows
    simp [fsLs, hmiss, hrows]

/-- C4 witness: a recursive query on an empty cache stores the fetched
rows. -/
theorem ls_cache_policy_wit :
    (fsLs (fun _ _ => .ok [⟨"-rw-r--r--", "5", "b"⟩]) [] "/a" true true).1
      = [] ++ [⟨"-rw-r--r--", "5", "b"⟩] :=
  (ls_cache_policy (fun _ _ => .ok [⟨"-rw-r--r--", "5", "b"⟩])
      (fun _ _ => .ok [⟨"-rw-r--r--", "5", "b"⟩]) [] "/a" true).2.2
    (by decide) [⟨"-rw-r--r--", "5", "b"⟩] rfl

/-- C9: the kind mapping `types` of `ECFileSystem.ls` is partial: it has
no branch for a permission code other than `d`, `-`, `o`, and a detailed
listing whose first entry carries such a code makes `ls` raise `KeyError`
on that code. -/
theorem ls_unknown_kind_keyerror (c : Char) (restPerm sz rp p : String)
    (rest : List LsRow) (hd : c ≠ 'd') (hh : c ≠ '-') (ho : c ≠ 'o') :
    kindOf c = none
    ∧ (fsLs (fun _ _ => .ok (⟨String.mk (c :: restPerm.toList), sz, rp⟩ :: rest))
          [] p true false).2
        = .error (.keyError c) := by
  have hk : kindOf c = none := by simp [kindOf, hd, hh, ho]
  refine ⟨hk, ?_⟩
  simp [fsLs, buildDetailList, classifyRow, hk]

/-- C9 witness: a symbolic-link entry (`l...`) raises `KeyError 'l'`. -/
theorem ls_unknown_kind_keyerror_wit :
    (fsLs (fun _ _ => .ok [⟨"lrwxrwxrwx", "5", "x"⟩]) [] "/a" true false).2
      = .error (.keyError 'l') :=
  (ls_unknown_kind_keyerror 'l' "rwxrwxrwx" "5" "x" "/a" []
    (by decide) (by decide) (by decide)).2

/-- C10: `ECFileSystem.exists` returns `true` exactly when `ls` succeeds,
and swallows every exception `ls` can raise — permission-denied, generic
retrieval errors and not-found alike — returning `false` instead of
propagating. -/
theorem exists_swallows_errors
    (fetch : String → Bool → Except EcfsError (List LsRow))
    (cache : List LsRow) (p : String) :
    fsExists fetch cache p = exOk (fsLs fetch cache p true false).2
    ∧ (∀ msg, fsExists (fun _ _ => .error (.permissionDenied msg)) [] p = false)
    ∧ (∀ msg, fsExists (fun _ _ => .error (.generic msg)) [] p = false)
    ∧ (∀ msg, fsExists (fun _ _ => .error (.fileNotFound msg)) [] p = false) := by
  refine ⟨?_, fun msg => rfl, fun msg => rfl, fun msg => rfl⟩
  unfold fsExists exOk
  cases (fsLs fetch cache p true false).2 <;> rfl

/-- Helper: `os.makedirs` leaves the requested directory existing. -/
theorem mem_mkdirs (dirs : List (List String)) (d : List String)
    (hne : d ≠ []) : d ∈ mkdirs dirs d := by
  by_cases hd : d ∈ dirs
  · exact List.mem_append_left _ hd
  · refine List.mem_append_right _ (List.mem_filter.mpr ⟨?_, ?_⟩)
    · exact List.mem_map.mpr
        ⟨d.length, List.mem_range.mpr (Nat.lt_succ_self _), List.take_length d⟩
    · simp [hne, hd]

/-- C6: `ecfs.cp` treats a failure exit of the `ecp` subprocess as an
error (`subprocess.check_output` raises `CalledProcessError`), treats any
non-empty diagnostic output as an error, and on a successful run of the
spec-modelled `ecp` command the parent directory of the destination has
been created. -/
theorem cp_contract :
    (∀ r : EcpRun, r.exitOk = false → cp r = .error "CalledProcessError")
    ∧ (∀ r : EcpRun, r.exitOk = true → r.stdout ≠ "" →
        cp r = .error "Error running command")
    ∧ (∀ (dirs : List (List String)) (dst : List String), dst.dropLast ≠ [] →
        cp (ecpSpec dirs dst) = .ok (mkdirs dirs dst.dropLast)
        ∧ dst.dropLast ∈ mkdirs dirs dst.dropLast) := by
  refine ⟨?_, ?_, ?_⟩
  · intro r hr
    simp [cp, hr]
  · intro r hr hs
    simp [cp, hr, hs]
  · intro dirs dst hne
    exact ⟨rfl, mem_mkdirs dirs dst.dropLast hne⟩

/-- C6 witness: copying into `scratch/a/b.dat` on an empty local tree
succeeds and creates `scratch/a`. -/
theorem cp_contract_wit :
    cp (ecpSpec [] ["scratch", "a", "b.dat"]) = .ok (mkdirs [] ["scratch", "a"])
    ∧ ["scratch", "a"] ∈ mkdirs [] ["scratch", "a"] :=
  cp_contract.2.2 [] ["scratch", "a", "b.dat"] (by decide)

/-- Helper: the fold computing the widest row, when every row has the same
length. -/
theorem foldr_max_const (l : List Nat) (n : Nat) (h : ∀ x ∈ l, x = n) :
    l.foldr max 0 = if l.isEmpty then 0 else n := by
  induction l with
  | nil => rfl
  | cons a as ih =>
    have ha : a = n := h a (by simp)
    have ih' := ih (fun x hx => h x (by simp [hx]))
    cases as with
    | nil => simp [ha]
    | cons b bs =>
      simp only [List.foldr_cons] at ih' ⊢
      simp [ha, ih']

/-- Helper: `pd.DataFrame` succeeds, changing nothing, when every row has
exactly the column count. -/
theorem mkDataFrame_ok (rows : List (List String)) (n : Nat)
    (h : ∀ r ∈ rows, r.length = n) : mkDataFrame rows n = .ok rows := by
  by_cases hr : rows = []
  · subst hr
    rfl
  · have hne : rows.isEmpty = false := by
      cases rows with
      | nil => exact absurd rfl hr
      | cons x xs => rfl
    have hmap : ∀ x ∈ rows.map List.length, x = n := by
      intro x hx
      obtain ⟨r, hrmem, rfl⟩ := List.mem_map.mp hx
      exact h r hrmem
    have hne2 : (rows.map List.length).isEmpty = false := by
      cases rows with
      | nil => exact absurd rfl hr
      | cons x xs => rfl
    have hw : (rows.map List.length).foldr max 0 = n := by
      rw [foldr_max_const _ n hmap, hne2]
      rfl
    have hpad : rows.map (fun r => r ++ List.replicate (n - r.length) "")
        = rows := by
      have hcongr : rows.map (fun r => r ++ List.replicate (n - r.length) "")
          = rows.map id :=
        List.map_congr_left (fun r hrmem => by simp [h r hrmem])
      simp [hcongr]
    simp [mkDataFrame, hne, hw, hpad]

/-- C7: given well-formed `els` output, `ecfs.ls` raises exactly when the
command exits non-zero, and the error is distinguishable by the stderr
text the command signals its failure with: `PermissionError` when stderr
reports "Permission denied", `FileNotFoundError` when it reports "File
does not exist", a generic error otherwise; on a zero exit the parsed
entries are returned. -/
theorem ls_error_taxonomy (detail : Bool) (res : CmdResult)
    (hw : wellFormedOut detail res) :
    (exOk (lsRun detail res) = false ↔ res.returncode ≠ 0)
    ∧ (res.returncode ≠ 0 →
        lsRun detail res =
          if strContains res.stderr "Permission denied" then
            .error (.permissionDenied res.stderr)
          else if strContains res.stderr "File does not exist" then
            .error (.fileNotFound res.stderr)
          else .error (.generic res.stderr)) := by
  by_cases hz : res.returncode = 0
  · have hnz : ¬res.returncode ≠ 0 := by simp [hz]
    have hok : exOk (lsRun detail res) = true := by
      cases hdet : detail
      · simp only [lsRun, if_neg hnz, Bool.false_eq_true, if_false]
        rw [mkDataFrame_ok _ _ ?hall1]
        · rfl
        case hall1 =>
          intro r hrm
          obtain ⟨l, _, rfl⟩ := List.mem_map.mp hrm
          rfl
      · simp only [lsRun, if_neg hnz, if_true]
        rw [mkDataFrame_ok _ _ ?hall9]
        · rfl
        case hall9 =>
          intro r hrm
          obtain ⟨l, hl, rfl⟩ := List.mem_map.mp hrm
          exact hw hdet l hl
    constructor
    · rw [hok]
      simp [hz]
    · intro hc
      exact absurd hz hc
  · have herr : lsRun detail res =
        if strContains res.stderr "Permission denied" then
          .error (.permissionDenied res.stderr)
        else if strContains res.stderr "File does not exist" then
          .error (.fileNotFound res.stderr)
        else .error (.generic res.stderr) := by
      simp only [lsRun, if_pos hz]
    refine ⟨?_, fun _ => herr⟩
    rw [herr]
    constructor
    · intro _
      exact hz
    · intro _
      split
      · rfl
      · split <;> rfl

/-- C7 witness: a non-zero exit with "Permission denied" on stderr raises,
and is classified as a permission error. -/
theorem ls_error_taxonomy_wit :
    exOk (lsRun true ⟨1, "", "els: Permission denied"⟩) = false
    ∧ lsRun true ⟨1, "", "els: Permission denied"⟩
        = .error (.permissionDenied "els: Permission denied") := by
  have h := ls_error_taxonomy true ⟨1, "", "els: Permission denied"⟩
    (by intro _; decide)
  exact ⟨h.1.mpr (by decide), (h.2 (by decide)).trans (by decide)⟩

end Ecmwfspec
